import Mathlib

/-!
Shallow embedding of `render_utils.py` (wbez/snow-tows): asset includers
with a compile-mode cache, path relativization, the document-annotation
scan inside `make_context`, config flattening, and the two text filters.
Machine behaviour of Python 2 that the code relies on (old-style `%`
string formatting, `str.split`, `str.replace`, the `in` substring test,
`str.upper`, `unicode`/`Markup` coercions and the implicit ASCII decode
performed when `Markup` is built from a byte string) is modelled
explicitly below.
-/

namespace SnowTows

/-! ## Python string primitives

The string operations the source relies on are modelled by structural
recursion over the character data, so that every definition evaluates
inside the kernel on concrete inputs. -/

/-- Match `pre` against the front of `l`; on success return the remainder
of `l`. -/
def stripPrefixList : List Char → List Char → Option (List Char)
  | [], l => some l
  | _ :: _, [] => none
  | p :: ps, c :: cs => if c = p then stripPrefixList ps cs else none

/-- Worker for splitting on a non-empty separator: `acc` holds the
current piece reversed. Each step consumes at least one character, so a
fuel equal to the length of the remaining list never runs out (the
zero-fuel fallback is unreachable for the fuel chosen by `pySplit`). -/
def splitGo (sep : List Char) : Nat → List Char → List Char → List (List Char)
  | _, acc, [] => [acc.reverse]
  | 0, acc, rest => [acc.reverse ++ rest]
  | fuel + 1, acc, c :: cs =>
    match stripPrefixList sep (c :: cs) with
    | some rest => acc.reverse :: splitGo sep fuel [] rest
    | none => splitGo sep fuel (c :: acc) cs

/-- Python `s.split(sep)` for a non-empty separator: the pieces between
non-overlapping, leftmost-first occurrences of `sep`, empty pieces
included. -/
def pySplit (s : String) (sep : String) : List String :=
  if sep.data.isEmpty then [s]
  else (splitGo sep.data s.data.length [] s.data).map (fun cs => ⟨cs⟩)

/-- Python `s.startswith(pre)`. -/
def pyStartswith (s : String) (pre : String) : Bool :=
  pre.data.isPrefixOf s.data

/-- Python `s[:n]` (character based). -/
def pyTake (s : String) (n : Nat) : String :=
  ⟨s.data.take n⟩

/-- Python `s[n:]` (character based). -/
def pyDrop (s : String) (n : Nat) : String :=
  ⟨s.data.drop n⟩

/-- Worker for `replace`, fuelled like `splitGo`. -/
def replaceGo (old new : List Char) : Nat → List Char → List Char
  | _, [] => []
  | 0, rest => rest
  | fuel + 1, c :: cs =>
    match stripPrefixList old (c :: cs) with
    | some rest => new ++ replaceGo old new fuel rest
    | none => c :: replaceGo old new fuel cs

/-- Python `s.replace(old, new)` for the non-empty `old` the source
passes: every non-overlapping leftmost occurrence is replaced. -/
def pyReplace (s old new : String) : String :=
  if old.data.isEmpty then s
  else ⟨replaceGo old.data new.data s.data.length s.data⟩

/-- Old-style `%` formatting restricted to the `%s` conversions used by the
source: the template is split on `%s` and the arguments are interleaved in
order. -/
def pyFormatParts : List String → List String → String
  | [], _ => ""
  | [piece], _ => piece
  | piece :: rest, [] => piece ++ String.intercalate "%s" rest
  | piece :: rest, a :: as => piece ++ a ++ pyFormatParts rest as

/-- Python `tmpl % (args...)` for `%s`-only templates. -/
def pyFormat (tmpl : String) (args : List String) : String :=
  pyFormatParts (pySplit tmpl "%s") args

/-- Python `tmpl % arg` with a single `%s` argument. -/
def pyFormatS (tmpl : String) (arg : String) : String :=
  pyFormat tmpl [arg]

/-- Python `sub in s` substring containment: the empty string is contained
everywhere; otherwise `sub` occurs in `s` iff splitting on it yields at
least two pieces. -/
def pyIn (sub s : String) : Bool :=
  if sub == "" then true else decide ((pySplit s sub).length ≥ 2)

/-- Python 2 `str.upper` over the byte-string identifiers the source deals
with: uppercase each ASCII letter, leave every other character alone.
`Char.toUpper` implements exactly this a-to-z mapping. -/
def pyUpper (s : String) : String :=
  ⟨s.data.map Char.toUpper⟩

/-- UTF-8 encoding of one code point, as Python 2 `unicode.encode` emits it. -/
def utf8BytesOfChar (c : Char) : List Nat :=
  let n := c.toNat
  if n < 128 then [n]
  else if n < 2048 then [192 + n / 64, 128 + n % 64]
  else if n < 65536 then [224 + n / 4096, 128 + (n / 64) % 64, 128 + n % 64]
  else [240 + n / 262144, 128 + (n / 4096) % 64, 128 + (n / 64) % 64, 128 + n % 64]

/-- Python 2 `s.encode(utf8)`: the byte string of the UTF-8 encoding. -/
def pyEncodeUtf8 (s : String) : List Nat :=
  (s.data.map utf8BytesOfChar).flatten

/-- Bytes `urllib.quote` never escapes (its `always_safe` set: ASCII
letters, digits, underscore, period, hyphen). -/
def isUrllibSafe (b : Nat) : Bool :=
  (65 ≤ b && b ≤ 90) || (97 ≤ b && b ≤ 122) || (48 ≤ b && b ≤ 57) ||
    b == 95 || b == 46 || b == 45

/-- Uppercase hexadecimal digit, as `urllib` uses in percent escapes. -/
def hexDigitChar (n : Nat) : Char :=
  if n < 10 then Char.ofNat (48 + n) else Char.ofNat (55 + n)

/-- Percent-escape or pass through one byte under `urllib.quote_plus`
rules: safe bytes unchanged, space becomes `+`, all else `%XX`. -/
def quoteByte (b : Nat) : String :=
  if isUrllibSafe b then String.singleton (Char.ofNat b)
  else if b == 32 then "+"
  else "%" ++ String.singleton (hexDigitChar (b / 16)) ++ String.singleton (hexDigitChar (b % 16))

/-- Python 2 `urllib.quote_plus` over a byte string. -/
def quote_plus (bs : List Nat) : String :=
  String.join (bs.map quoteByte)

/-- ASCII decode of a byte string (total on the byte lists it is applied
to, which are checked to be ASCII first). -/
def asciiDecode (bs : List Nat) : String :=
  ⟨bs.map Char.ofNat⟩

/-- Python 2 `Markup(byte_string)`: `Markup` subclasses `unicode`, so
construction implicitly decodes the bytes as ASCII and raises
`UnicodeDecodeError` on any byte `>= 128`. The result is the decoded
text; the error case models the raised exception. -/
def markupOfBytes (bs : List Nat) : Except Unit String :=
  if bs.all (fun b => b < 128) then .ok (asciiDecode bs) else .error ()

/-! ## Python values reaching the text filters -/

/-- Runtime type objects relevant to the filters: `unicode` and the
`Markup` subclass of `unicode`. -/
inductive PyType where
  | unicodeT
  | markupT
deriving DecidableEq, Repr

/-- Text values the template engine hands to the filters: plain `unicode`
strings and `Markup` instances wrapping the same character data. -/
inductive PyVal where
  | ustr (s : String)
  | markup (s : String)
deriving DecidableEq, Repr

/-- Python `type(v)`. -/
def PyVal.typeOf : PyVal → PyType
  | .ustr _ => .unicodeT
  | .markup _ => .markupT

/-- Underlying character data of the value. -/
def PyVal.chars : PyVal → String
  | .ustr s => s
  | .markup s => s

/-- Python `unicode(v)`: both variants are `unicode` instances, so the
conversion returns the same character data as a plain `unicode`. -/
def pyUnicodeOf (v : PyVal) : String :=
  v.chars

/-- Operands of the `==` comparison appearing in the filter guards: a
string literal on one side, a type object on the other. -/
inductive PyObj where
  | str (s : String)
  | typeObj (t : PyType)
deriving DecidableEq, Repr

/-- Python `==` between such operands: equality within one kind, and
`False` across kinds (neither `str` nor `type` defines a cross-type
`eq`, so Python falls back to identity, which fails). -/
def pyEq : PyObj → PyObj → Bool
  | .str a, .str b => a == b
  | .typeObj a, .typeObj b => a == b
  | _, _ => false

/-! ## Includer hierarchy -/

/-- State of one `Includer` instance (`render_utils.py` lines 34-48). -/
structure Includer where
  includes : List String
  tag_string : String
  asset_depth : Nat
deriving DecidableEq, Repr

/-- `Includer.push`: append the path to the pending list and return the
empty placeholder string. -/
def Includer.push (inc : Includer) (path : String) : String × Includer :=
  ("", { inc with includes := inc.includes ++ [path] })

/-- Iterated `while depth > 0: relative_path = ../relative_path` loop. -/
def prependDotdots : Nat → String → String
  | 0, p => p
  | n + 1, p => prependDotdots n ("../" ++ p)

/-- `Includer._relativize_path` (lines 53-64): strip a leading `www/`,
compute `depth = len(request.path.split(/)) - (2 + asset_depth)` and
prepend that many `../` segments (none when the difference is not
positive, as in the Python `while depth > 0` loop). -/
def Includer.relativize_path (inc : Includer) (requestPath : String) (path : String) : String :=
  let relative_path := if pyStartswith path "www/" then pyDrop path 4 else path
  let depth : Int := ((pySplit requestPath "/").length : Int) - (2 + (inc.asset_depth : Int))
  prependDotdots depth.toNat relative_path

/-- Process-wide state read and written by `Includer.render`: the
`compile_includes` flag, the `compiled_includes` cache from logical path
to timestamped path, and the current value of `int(time.time())`. -/
structure GState where
  compile_includes : Bool
  compiled_includes : List (String × String)
  now : Nat
deriving DecidableEq, Repr

/-- `Includer.render` (lines 66-97). Compilation mode: reuse the cached
timestamped path when present, otherwise stamp `path?now`, record it in
the cache (the file write of the compressed output is an effect outside
this model) and emit one tag for it. Development mode: emit one tag per
pending path, newline-joined (the dead `join` with commas on line 87 is
immediately overwritten and not modelled). Both modes clear the pending
list. Returns the markup, the updated instance and the updated state. -/
def Includer.render (inc : Includer) (path : String) (requestPath : String) (st : GState) :
    String × Includer × GState :=
  if st.compile_includes then
    match st.compiled_includes.lookup path with
    | some timestamp_path =>
        (pyFormatS inc.tag_string (inc.relativize_path requestPath timestamp_path),
         { inc with includes := [] }, st)
    | none =>
        let timestamp_path := path ++ "?" ++ toString st.now
        let st' := { st with compiled_includes := (path, timestamp_path) :: st.compiled_includes }
        (pyFormatS inc.tag_string (inc.relativize_path requestPath timestamp_path),
         { inc with includes := [] }, st')
  else
    (String.intercalate "\n"
       (inc.includes.map fun src => pyFormatS inc.tag_string (inc.relativize_path requestPath src)),
     { inc with includes := [] }, st)

/-- Fresh `JavascriptIncluder` (lines 99-106). -/
def JavascriptIncluder (asset_depth : Nat) : Includer :=
  { includes := []
    tag_string := "<script type=\"text/javascript\" src=\"%s\"></script>"
    asset_depth := asset_depth }

/-- Fresh `CSSIncluder` (lines 127-134). -/
def CSSIncluder (asset_depth : Nat) : Includer :=
  { includes := []
    tag_string := "<link rel=\"stylesheet\" type=\"text/css\" href=\"%s\" />"
    asset_depth := asset_depth }

/-- Sequence of `push` calls, keeping only the instance. -/
def pushAll (inc : Includer) (paths : List String) : Includer :=
  paths.foldl (fun i p => (i.push p).2) inc

/-! ## Document annotation scan inside `make_context` -/

/-- One sibling markup node as the scan observes it: `sib.text` (the tag
stripped text), `unicode(sib)` (the full markup, field `markup`), and the
text and `href` of the embedded `<a>` child used by the `DOCUMENT:`
branch. -/
structure Sib where
  text : String
  markup : String
  aText : String
  aHref : String
deriving DecidableEq, Repr

/-- One entry of `doc.text_list`; `cls` carries the `class` key of the
Python dict. -/
structure Segment where
  template : String
  text : String
  cls : String
deriving DecidableEq, Repr

/-- `dict_template` of line 205. -/
def dict_template : Segment :=
  { template := "main", text := "", cls := "" }

/-- Raw-passthrough test of line 214: the text starts with an iframe,
data paragraph, horizontal rule or image marker. -/
def is_raw_markup (t : String) : Bool :=
  pyStartswith t "<iframe" || pyStartswith t "<p data" || pyStartswith t "<hr" || pyStartswith t "<img"

/-- Fixed image/link template of the `DOCUMENT:` branch (line 226). -/
def document_tag_template : String :=
  "<p class=\"document image\"><a href=\"%s\" >%s<br><img class=\"img-rounded\" src=\"https://s3.amazonaws.com/wbez-assets/WBEZ-Graphics/snow-tows/%s.jpg\" /></a></p>"

/-- Inner sibling loop of `make_context` (lines 210-240), returning the
text appended to `doc.text` and the segments appended to `doc.text_list`.
Collection stops, without emitting, at the first sibling whose text is
exactly `-30-`. The raw branch appends `sib.text` to both; the
`DOCUMENT:` branch emits the fixed template over the first character of
the link href, the link text, and a key chosen by whether `Plan` occurs
in the link text (the stripped `t` of line 220 is a dead store); the
`CAPTION:` branch emits `unicode(sib)` with the `CAPTION: ` marker
removed; the default branch appends `unicode(sib)` to both. -/
def collect_siblings : List Sib → String × List Segment
  | [] => ("", [])
  | sib :: rest =>
    if sib.text == "-30-" then ("", [])
    else if is_raw_markup sib.text then
      (sib.text ++ (collect_siblings rest).1,
       { dict_template with text := sib.text, cls := "col-sm-10 col-sm-offset-1" }
         :: (collect_siblings rest).2)
    else if pyStartswith sib.text "DOCUMENT:" then
      ((collect_siblings rest).1,
       { dict_template with
           text := pyFormat document_tag_template
             [pyTake sib.aHref 1, sib.aText,
              if pyIn "Plan" sib.aText then "document" else "contract"] }
         :: (collect_siblings rest).2)
    else if pyStartswith sib.text "CAPTION:" then
      ((collect_siblings rest).1,
       { dict_template with
           text := pyReplace sib.markup "CAPTION: " ""
           cls := "col-sm-8 col-sm-offset-2 caption" }
         :: (collect_siblings rest).2)
    else
      (sib.markup ++ (collect_siblings rest).1,
       { dict_template with text := sib.markup } :: (collect_siblings rest).2)

/-- Mutable part of the `CopyDoc` object the scan updates: the running
concatenated text and the segment list. -/
structure CopyDocState where
  text : String
  text_list : List Segment
deriving DecidableEq, Repr

/-- Outer loop of lines 207-240: every paragraph whose text starts with
`TEXT:` has its following siblings collected into the document state. A
paragraph is given as its own text together with its `next_siblings`. -/
def scan_doc (doc : CopyDocState) (paras : List (String × List Sib)) : CopyDocState :=
  paras.foldl
    (fun d para =>
      if pyStartswith para.1 "TEXT:" then
        { d with
            text := d.text ++ (collect_siblings para.2).1
            text_list := d.text_list ++ (collect_siblings para.2).2 }
      else d)
    doc

/-! ## Config flattening and context building -/

/-- `flatten_app_config` (lines 161-173): keep exactly the attributes
whose name is unchanged by `upper()`. -/
def flatten_app_config {α : Type} (attrs : List (String × α)) : List (String × α) :=
  attrs.filter (fun kv => pyUpper kv.1 == kv.1)

/-- Values stored in the context mapping built by `make_context`. -/
inductive CtxVal where
  | conf (v : String)
  | copy (c : String)
  | doc (d : CopyDocState)
  | js (i : Includer)
  | css (i : Includer)
deriving DecidableEq, Repr

/-- `make_context` (lines 175-245) over explicit inputs for its external
reads: the attribute list of `app_config`, the outcome of
`copytext.Copy(COPY_PATH)` (error = the recognized `CopyException`,
swallowed by the bare `pass`), the initial `CopyDoc` state produced by
`copydoc.CopyDoc`, and the parsed paragraph list of the document. The
context is the flattened config, then `COPY` when the copy store loaded,
then `DOC` holding the scanned document and fresh `JS` and `CSS`
includers at the requested asset depth. -/
def make_context (attrs : List (String × String)) (copyResult : Except Unit String)
    (docInit : CopyDocState) (paras : List (String × List Sib)) (asset_depth : Nat) :
    List (String × CtxVal) :=
  let context := (flatten_app_config attrs).map (fun kv => (kv.1, CtxVal.conf kv.2))
  let context :=
    match copyResult with
    | .ok c => context ++ [("COPY", CtxVal.copy c)]
    | .error _ => context
  context ++
    [("DOC", CtxVal.doc (scan_doc docInit paras)),
     ("JS", CtxVal.js (JavascriptIncluder asset_depth)),
     ("CSS", CtxVal.css (CSSIncluder asset_depth))]

/-! ## Text filters -/

/-- `urlencode_filter` (lines 247-261). The first guard compares the type
object of the argument with the string literal `Markup`; `unescapeFn`
stands for the external `Markup.unescape` the dead branch would call.
Then any non-`unicode` value is coerced with `unicode()`, encoded as
UTF-8 and percent-quoted; the result is wrapped in `Markup` (always
ASCII, hence total). -/
def urlencode_filter (unescapeFn : String → String) (v0 : PyVal) : String :=
  let v := if pyEq (PyObj.typeObj v0.typeOf) (PyObj.str "Markup")
    then PyVal.ustr (unescapeFn v0.chars) else v0
  let s := if v.typeOf != PyType.unicodeT then pyUnicodeOf v else v.chars
  quote_plus (pyEncodeUtf8 s)

/-- `smarty_filter` (lines 263-282). Same guard and coercion as the
urlencode filter; `sp` stands for the external `smartypants` byte-string
transform. The final `try` wraps only the `Markup` construction: on
failure the handler logs and then evaluates `Markup(s)` again on the same
bytes, so the same exception is raised a second time and propagates
(modelled by the error of the inner match). -/
def smarty_filter (unescapeFn : String → String) (sp : List Nat → List Nat) (v0 : PyVal) :
    Except Unit String :=
  let v := if pyEq (PyObj.typeObj v0.typeOf) (PyObj.str "Markup")
    then PyVal.ustr (unescapeFn v0.chars) else v0
  let s := if v.typeOf != PyType.unicodeT then pyUnicodeOf v else v.chars
  let bs := sp (pyEncodeUtf8 s)
  match markupOfBytes bs with
  | .ok m => .ok m
  | .error _ =>
    match markupOfBytes bs with
    | .ok m => .ok m
    | .error e => .error e

/-! ## Branch summaries used to state the accumulator property -/

/-- Contribution of one collected sibling to `doc.text`: the raw branch
contributes `sib.text`, the default branch `unicode(sib)`, and the
`DOCUMENT:` and `CAPTION:` branches contribute nothing. -/
def sib_text_contribution (sib : Sib) : String :=
  if is_raw_markup sib.text then sib.text
  else if pyStartswith sib.text "DOCUMENT:" then ""
  else if pyStartswith sib.text "CAPTION:" then ""
  else sib.markup

/-- Segment emitted for one collected sibling, branch by branch. -/
def sib_segment (sib : Sib) : Segment :=
  if is_raw_markup sib.text then
    { dict_template with text := sib.text, cls := "col-sm-10 col-sm-offset-1" }
  else if pyStartswith sib.text "DOCUMENT:" then
    { dict_template with
        text := pyFormat document_tag_template
          [pyTake sib.aHref 1, sib.aText,
           if pyIn "Plan" sib.aText then "document" else "contract"] }
  else if pyStartswith sib.text "CAPTION:" then
    { dict_template with
        text := pyReplace sib.markup "CAPTION: " ""
        cls := "col-sm-8 col-sm-offset-2 caption" }
  else
    { dict_template with text := sib.markup }

/-- Sample document-reference sibling used to instantiate the statement
about the `DOCUMENT:` branch on a concrete input. -/
def sampleDocSib : Sib :=
  { text := "DOCUMENT: Winter Towing Plan"
    markup := "<p>DOCUMENT: <a href=\"https://example.org/plan.pdf\">Winter Towing Plan</a></p>"
    aText := "Winter Towing Plan"
    aHref := "https://example.org/plan.pdf" }

/-! ## Helper lemmas -/

lemma string_ext {s t : String} (h : s.data = t.data) : s = t := by
  cases s; cases t
  exact congrArg String.mk (by simpa using h)

lemma pushAll_eq (inc : Includer) (paths : List String) :
    pushAll inc paths = { inc with includes := inc.includes ++ paths } := by
  induction paths generalizing inc with
  | nil => simp [pushAll]
  | cons p ps ih =>
    have h1 : pushAll inc (p :: ps) =
        pushAll { inc with includes := inc.includes ++ [p] } ps := rfl
    rw [h1, ih]
    simp

lemma flatten_replicate_comm (n : Nat) (d : List Char) :
    (List.replicate n d).flatten ++ d = d ++ (List.replicate n d).flatten := by
  rw [← List.flatten_cons, ← List.replicate_succ, List.replicate_succ', List.flatten_append]
  simp

lemma prependDotdots_eq (n : Nat) (s : String) :
    prependDotdots n s = String.join (List.replicate n "../") ++ s := by
  induction n generalizing s with
  | zero =>
    apply string_ext
    simp [prependDotdots, String.join_eq]
  | succ n ih =>
    have h1 : prependDotdots (n + 1) s = prependDotdots n ("../" ++ s) := rfl
    rw [h1, ih]
    apply string_ext
    simp only [String.data_append, String.join_eq, List.map_replicate, List.replicate_succ,
      List.flatten_cons]
    rw [← List.append_assoc, flatten_replicate_comm]
    simp

lemma string_join_cons (a : String) (l : List String) :
    String.join (a :: l) = a ++ String.join l := by
  apply string_ext
  simp [String.join_eq]

lemma char_isLower_bounds (c : Char) (h : c.isLower = true) : 97 ≤ c.toNat ∧ c.toNat ≤ 122 := by
  simp [Char.isLower, UInt32.le_def, BitVec.le_def] at h
  exact h

lemma toUpper_ne_of_isLower (c : Char) (h : c.isLower = true) : Char.toUpper c ≠ c := by
  obtain ⟨h97, h122⟩ := char_isLower_bounds c h
  intro he
  have hcond : c.toNat ≥ 97 ∧ c.toNat ≤ 122 := ⟨h97, h122⟩
  rw [Char.toUpper] at he
  simp only [if_pos hcond] at he
  have hv : (c.toNat - 32).isValidChar := Or.inl (by omega)
  have ht : (Char.ofNat (c.toNat - 32)).toNat = c.toNat - 32 := by
    rw [Char.ofNat, dif_pos hv]
    rfl
  have hn := congrArg Char.toNat he
  rw [ht] at hn
  omega

lemma map_eq_self_at {α : Type} {f : α → α} :
    ∀ {l : List α}, l.map f = l → ∀ c ∈ l, f c = c := by
  intro l
  induction l with
  | nil => intro _ c hc; cases hc
  | cons a l ih =>
    intro h c hc
    simp only [List.map_cons, List.cons.injEq] at h
    rcases List.mem_cons.mp hc with hc2 | hc2
    · rw [hc2]
      exact h.1
    · exact ih h.2 c hc2

lemma lookup_eq_none_of_not_mem {β : Type} (k : String) :
    ∀ (l : List (String × β)), k ∉ l.map Prod.fst → l.lookup k = none := by
  intro l
  induction l with
  | nil => intro _; rfl
  | cons kv rest ih =>
    intro h
    obtain ⟨k1, v1⟩ := kv
    simp only [List.map_cons, List.mem_cons] at h
    push_neg at h
    have hb : (k == k1) = false := by simp [h.1]
    simp [List.lookup, hb, ih h.2]

/-! ## Claim theorems -/

/-- C1: with the compile-includes flag unset, rendering an `Includer`
holding any sequence of pushed paths returns the newline-joined list of
exactly one tag per pushed path, in push order, with the tag template
applied to the relativized path; afterwards the pending includes list is
empty and the process state is untouched. -/
theorem dev_render_tags_and_drain (tag : String) (d : Nat) (paths : List String)
    (p requestPath : String) (cache : List (String × String)) (now : Nat) :
    Includer.render (pushAll { includes := [], tag_string := tag, asset_depth := d } paths)
        p requestPath { compile_includes := false, compiled_includes := cache, now := now } =
      (String.intercalate "\n"
        (paths.map fun src =>
          pyFormatS tag
            (Includer.relativize_path { includes := [], tag_string := tag, asset_depth := d }
              requestPath src)),
       { includes := [], tag_string := tag, asset_depth := d },
       { compile_includes := false, compiled_includes := cache, now := now }) := by
  rw [pushAll_eq]
  simp [Includer.render, Includer.relativize_path]

/-- C5: path relativization strips a leading `www/` when present,
computes the depth as the number of `/`-separated segments of the request
path minus 2 minus the asset depth (clamped at zero by the loop guard)
and prepends exactly that many `../` segments; in particular
`www/foo/bar.js` at asset depth 0 from request path `/a/b/` becomes
`../../foo/bar.js`. -/
theorem relativize_path_formula (includes : List String) (tag : String) (d : Nat)
    (requestPath path : String) :
    Includer.relativize_path ⟨includes, tag, d⟩ requestPath path =
      String.join (List.replicate
          ((((pySplit requestPath "/").length : Int) - (2 + (d : Int))).toNat) "../") ++
        (if pyStartswith path "www/" then pyDrop path 4 else path) ∧
    Includer.relativize_path ⟨[], tag, 0⟩ "/a/b/" "www/foo/bar.js" = "../../foo/bar.js" := by
  constructor
  · simp only [Includer.relativize_path]
    exact prependDotdots_eq _ _
  · rfl

/-- C2: in compilation mode there is a timestamped path `tp` such that
the first render of a path leaves the cache mapping that path to `tp` and
emits the tag for `tp`, and a second render of the same path from the
resulting cache, at any later clock value, emits the tag for the same
`tp` and leaves the instance drained and the state (cache included)
unchanged; the cache therefore never maps one logical path to two
different timestamps within one process lifetime. -/
theorem compiled_render_reuses_cached_timestamp (inc inc' : Includer)
    (path requestPath : String) (cache : List (String × String)) (now now' : Nat) :
    ∃ tp,
      ((inc.render path requestPath
          { compile_includes := true, compiled_includes := cache,
            now := now }).2.2).compiled_includes.lookup path = some tp ∧
      (inc.render path requestPath
          { compile_includes := true, compiled_includes := cache, now := now }).1 =
        pyFormatS inc.tag_string (inc.relativize_path requestPath tp) ∧
      inc'.render path requestPath
          { compile_includes := true,
            compiled_includes := ((inc.render path requestPath
              { compile_includes := true, compiled_includes := cache,
                now := now }).2.2).compiled_includes,
            now := now' } =
        (pyFormatS inc'.tag_string (inc'.relativize_path requestPath tp),
         { inc' with includes := [] },
         { compile_includes := true,
           compiled_includes := ((inc.render path requestPath
             { compile_includes := true, compiled_includes := cache,
               now := now }).2.2).compiled_includes,
           now := now' }) := by
  cases h : cache.lookup path with
  | none =>
    refine ⟨path ++ "?" ++ toString now, ?_, ?_, ?_⟩ <;>
      simp [Includer.render, h, List.lookup]
  | some tp0 =>
    refine ⟨tp0, ?_, ?_, ?_⟩ <;> simp [Includer.render, h]

/-- C3: scanning a document whose sentinel paragraph (text starting with
`TEXT:`) is followed by siblings `hello`, `CAPTION: a caption`, `-30-`,
`ignored` stops at the `-30-` sibling without emitting it, and produces
exactly two segments: the plain text `hello` (empty class) and the
caption `a caption` with the `CAPTION:` marker stripped and the caption
class; the `ignored` sibling appears in no segment and the accumulated
text is `hello`. -/
theorem document_scan_example :
    scan_doc { text := "", text_list := [] }
        [("TEXT:",
          [{ text := "hello", markup := "hello", aText := "", aHref := "" },
           { text := "CAPTION: a caption", markup := "CAPTION: a caption", aText := "", aHref := "" },
           { text := "-30-", markup := "-30-", aText := "", aHref := "" },
           { text := "ignored", markup := "ignored", aText := "", aHref := "" }])] =
      { text := "hello",
        text_list :=
          [{ template := "main", text := "hello", cls := "" },
           { template := "main", text := "a caption",
             cls := "col-sm-8 col-sm-offset-2 caption" }] } := by
  decide

/-- C4 counterexample: a collected `CAPTION:` sibling is appended to the
segment sequence, yet the running text accumulator receives nothing from
it (the claim would require the caption text to be appended to
`doc.text` as well). -/
theorem caption_skips_text_accumulator :
    collect_siblings
        [{ text := "CAPTION: a caption", markup := "CAPTION: a caption",
           aText := "", aHref := "" }] =
      ("", [{ template := "main", text := "a caption",
              cls := "col-sm-8 col-sm-offset-2 caption" }]) := by
  decide

/-- C4 amended: during collection, the raw-passthrough and plain-text
classifications are appended to both the segment sequence and the running
text accumulator, while the document-reference and caption
classifications are appended only to the segment sequence: the collected
output maps each pre-sentinel sibling to its segment, and the accumulator
is the concatenation of the per-sibling text contributions, where the
`DOCUMENT:` and `CAPTION:` branches contribute the empty string. -/
theorem collect_siblings_accumulation (sibs : List Sib) :
    collect_siblings sibs =
      (String.join ((sibs.takeWhile fun sib => !(sib.text == "-30-")).map sib_text_contribution),
       (sibs.takeWhile fun sib => !(sib.text == "-30-")).map sib_segment) := by
  induction sibs with
  | nil => rfl
  | cons sib rest ih =>
    by_cases h : sib.text = "-30-"
    · simp [collect_siblings, h, List.takeWhile_cons, String.join]
    · have hb : (sib.text == "-30-") = false := by simp [h]
      by_cases h1 : is_raw_markup sib.text
      · simp [collect_siblings, hb, h1, List.takeWhile_cons, sib_text_contribution,
          sib_segment, ih, string_join_cons]
      · by_cases h2 : pyStartswith sib.text "DOCUMENT:"
        · simp [collect_siblings, hb, h1, h2, List.takeWhile_cons, sib_text_contribution,
            sib_segment, ih, string_join_cons]
        · by_cases h3 : pyStartswith sib.text "CAPTION:"
          · simp [collect_siblings, hb, h1, h2, h3, List.takeWhile_cons,
              sib_text_contribution, sib_segment, ih, string_join_cons]
          · simp [collect_siblings, hb, h1, h2, h3, List.takeWhile_cons,
              sib_text_contribution, sib_segment, ih, string_join_cons]

/-- C6: a collected sibling whose text begins with `DOCUMENT:` emits the
fixed image/link template block applied to the first character of the
embedded link href, the link text, and a static-asset key that is
`document` exactly when `Plan` occurs in the link text and `contract`
otherwise; nothing is added to the text accumulator. -/
theorem document_reference_segment (sib : Sib) (rest : List Sib)
    (hb : (sib.text == "-30-") = false) (hraw : is_raw_markup sib.text = false)
    (hdoc : pyStartswith sib.text "DOCUMENT:" = true) :
    collect_siblings (sib :: rest) =
      ((collect_siblings rest).1,
       { template := "main",
         text := pyFormat document_tag_template
           [pyTake sib.aHref 1, sib.aText,
            if pyIn "Plan" sib.aText then "document" else "contract"]
         cls := "" } :: (collect_siblings rest).2) := by
  simp [collect_siblings, hb, hraw, hdoc, dict_template]

/-- Witness for C6 at a concrete document-reference sibling whose link
text contains `Plan`. -/
theorem document_reference_segment_witness :
    ((sampleDocSib.text == "-30-") = false) ∧ (is_raw_markup sampleDocSib.text = false) ∧
    (pyStartswith sampleDocSib.text "DOCUMENT:" = true) ∧
    collect_siblings [sampleDocSib] =
      ((collect_siblings []).1,
       { template := "main",
         text := pyFormat document_tag_template
           [pyTake sampleDocSib.aHref 1, sampleDocSib.aText,
            if pyIn "Plan" sampleDocSib.aText then "document" else "contract"]
         cls := "" } :: (collect_siblings []).2) :=
  ⟨by decide, by decide, by decide,
   document_reference_segment sampleDocSib [] (by decide) (by decide) (by decide)⟩

/-- C7: an attribute name appears in the flattened config mapping iff it
is an attribute of the config object that `upper()` leaves unchanged
(which is what being all-uppercase means for the identifier alphabet),
and a name containing any lowercase letter never appears. -/
theorem flatten_app_config_uppercase_only {α : Type} (attrs : List (String × α)) (k : String) :
    (k ∈ (flatten_app_config attrs).map Prod.fst ↔
      k ∈ attrs.map Prod.fst ∧ pyUpper k = k) ∧
    ((∃ c ∈ k.data, c.isLower = true) → k ∉ (flatten_app_config attrs).map Prod.fst) := by
  have hiff : k ∈ (flatten_app_config attrs).map Prod.fst ↔
      k ∈ attrs.map Prod.fst ∧ pyUpper k = k := by
    simp only [flatten_app_config, List.mem_map, List.mem_filter, beq_iff_eq]
    constructor
    · rintro ⟨kv, ⟨ha, hp⟩, rfl⟩
      exact ⟨⟨kv, ha, rfl⟩, hp⟩
    · rintro ⟨⟨kv, ha, rfl⟩, hup⟩
      exact ⟨kv, ⟨ha, hup⟩, rfl⟩
  refine ⟨hiff, ?_⟩
  rintro ⟨c, hc, hlow⟩ hmem
  have hup : pyUpper k = k := (hiff.mp hmem).2
  have hdata : k.data.map Char.toUpper = k.data := by
    have hd := congrArg String.data hup
    simpa [pyUpper] using hd
  exact toUpper_ne_of_isLower c hlow (map_eq_self_at hdata c hc)

/-- Witness for C7 at a concrete attribute list holding an all-uppercase
and a lowercase name, and at the lowercase name. -/
theorem flatten_app_config_uppercase_only_witness :
    ("bar" ∈ (flatten_app_config [("FOO", "1"), ("bar", "2")]).map Prod.fst ↔
      "bar" ∈ ([("FOO", "1"), ("bar", "2")] : List (String × String)).map Prod.fst ∧
        pyUpper "bar" = "bar") ∧
    ((∃ c ∈ "bar".data, c.isLower = true) →
      "bar" ∉ (flatten_app_config [("FOO", "1"), ("bar", "2")]).map Prod.fst) :=
  flatten_app_config_uppercase_only [("FOO", "1"), ("bar", "2")] "bar"

/-- C8 (behaviour of the code at the failing input): the typographic
filter applied to a non-ASCII input raises instead of falling back: the
`Markup` construction of the UTF-8 bytes fails, the handler evaluates the
same construction again, and the error propagates out of the filter. -/
theorem smarty_filter_error_propagates :
    smarty_filter (fun s => s) (fun bs => bs) (PyVal.ustr "café") = .error () := rfl

/-- C9: when loading the copy-text store fails with the recognized
exception, the returned context has no `COPY` entry, the exception does
not propagate, and every other entry (the flattened config keys followed
by `DOC`, `JS` and `CSS`) is still produced. -/
theorem copy_failure_omits_only_copy (attrs : List (String × String))
    (docInit : CopyDocState) (paras : List (String × List Sib)) (d : Nat)
    (hc : "COPY" ∉ (flatten_app_config attrs).map Prod.fst) :
    (make_context attrs (.error ()) docInit paras d).lookup "COPY" = none ∧
    (make_context attrs (.error ()) docInit paras d).map Prod.fst =
      (flatten_app_config attrs).map Prod.fst ++ ["DOC", "JS", "CSS"] := by
  have hkeys : (make_context attrs (.error ()) docInit paras d).map Prod.fst =
      (flatten_app_config attrs).map Prod.fst ++ ["DOC", "JS", "CSS"] := by
    simp [make_context, List.map_map, Function.comp]
  refine ⟨?_, hkeys⟩
  apply lookup_eq_none_of_not_mem
  rw [hkeys]
  simp only [List.mem_append, not_or]
  exact ⟨hc, by decide⟩

/-- Witness for C9 at a concrete config with an uppercase and a lowercase
attribute, an empty document and asset depth 0. -/
theorem copy_failure_omits_only_copy_witness :
    ("COPY" ∉ (flatten_app_config [("FOO", "1"), ("bar", "2")]).map Prod.fst) ∧
    ((make_context [("FOO", "1"), ("bar", "2")] (.error ()) { text := "", text_list := [] } [] 0).lookup
        "COPY" = none ∧
      (make_context [("FOO", "1"), ("bar", "2")] (.error ()) { text := "", text_list := [] } [] 0).map
          Prod.fst =
        (flatten_app_config [("FOO", "1"), ("bar", "2")]).map Prod.fst ++ ["DOC", "JS", "CSS"]) :=
  ⟨by decide,
   copy_failure_omits_only_copy [("FOO", "1"), ("bar", "2")] { text := "", text_list := [] } [] 0
     (by decide)⟩

/-- C10: the unescape guard of both filters compares a type object with
the string literal `Markup`, which is false for every input, so the
branch is unreachable and each filter returns the same result on a
`Markup` instance as on the plain string wrapping the same text,
whatever the external unescape and smartypants transforms are. -/
theorem markup_guard_unreachable (u : String → String) (sp : List Nat → List Nat)
    (v : PyVal) (t : String) :
    pyEq (PyObj.typeObj v.typeOf) (PyObj.str "Markup") = false ∧
    urlencode_filter u (PyVal.markup t) = urlencode_filter u (PyVal.ustr t) ∧
    smarty_filter u sp (PyVal.markup t) = smarty_filter u sp (PyVal.ustr t) :=
  ⟨rfl, rfl, rfl⟩

end SnowTows
